import Mathlib

/-!
Verification of the prompt-dispatch worker and token-limit recovery protocol
of `src/project_window/project_window.py` (class `ProjectWindow`).

The embedding models the `ProjectWindow` methods that the claims are about
(`send_prompt`, `handle_token_limit_error`, `retry_with_summary`,
`retry_with_auto_summary`, `show_token_limit_dialog`,
`retry_with_truncated_story`, `stop_llm`, `cleanup_worker`) as pure
functions on an explicit window state.  Collaborators that live outside
`src/` (the `LLMWorker` thread object, `WWApiAggregator.interrupt`,
`prompt_handler.assemble_final_prompt`, the summary controller, Qt timers
and dialogs) are modelled from the specification, and each such definition
says so in its doc comment.  Fallible Python code is modelled with
`Except`: an `Except.error` value stands for an uncaught Python exception.
-/

namespace Writingway

/-- A Python runtime exception, as far as the modelled code can raise one:
`attributeError` for attribute access on `None` or on an object that lacks
the attribute, `typeError` for `PyQt` signal disconnection on an
already-disconnected signal. -/
inductive PyErr where
  | attributeError (msg : String)
  | typeError (msg : String)
deriving DecidableEq, Repr

/-- A Python dict value as it occurs in the prompt-configuration and
override dicts of the source: string-valued or numeric entries. -/
inductive PyVal where
  | pstr (v : String)
  | pnum (v : Nat)
deriving DecidableEq, Repr

/-- A Python dict with string keys, as used for `prose_config` (the dict
returned by `prose_prompt_panel.get_prompt()`) and for the overrides dict
returned by `prose_prompt_panel.get_overrides()`. -/
abbrev PyDict := List (String × PyVal)

/-- Python `d.get(key)` restricted to string values: the template text of a
prompt configuration is stored as a string (spec 4.1: the configuration
"must contain a non-empty template"); a missing key yields the empty
string stand-in for `None`. -/
def pyGetStr (d : PyDict) (k : String) : String :=
  match d.lookup k with
  | some (PyVal.pstr v) => v
  | _ => ""

/-- Python `d.get(key, default)` for a numeric entry such as
`"max_tokens"`: a missing (or non-numeric) entry yields the default. -/
def pyGetNatD (d : PyDict) (k : String) (dflt : Nat) : Nat :=
  match d.lookup k with
  | some (PyVal.pnum n) => n
  | _ => dflt

/-- Characters stripped by Python `str.strip()` with no argument
(the ASCII whitespace characters; the claims only need that
whitespace-only strings strip to the empty string). -/
def pyIsSpace (c : Char) : Bool :=
  c = ' ' || c = '\t' || c = '\n' || c = '\x0d' || c = '\x0b' || c = '\x0c'

/-- Python `s.strip()`: drop leading and trailing whitespace. -/
def pyStrip (s : String) : String :=
  String.mk (((s.data.dropWhile pyIsSpace).reverse.dropWhile pyIsSpace).reverse)

/-- Python `a or b` for strings: `b` when `a` is falsy (empty), else `a`.
Used for the POV/tense defaults in `retry_with_summary`. -/
def pyOrStr (a b : String) : String :=
  if a = "" then b else a

/-- Python list slice `l[-n:]` for a non-negative index `n`:
`l[-0:]` is `l[0:]`, the whole list; for `n > 0` it is the trailing
window of (at most) `n` elements. -/
def pyTailSlice {α : Type} (l : List α) (n : Nat) : List α :=
  if n = 0 then l else l.drop (l.length - n)

/-- Modelled from the spec: the fixed tokenization scheme (`tiktoken`
`cl100k_base`, an external library whose merge tables are not part of the
repository).  Modelled as a character-level encoding — a deterministic
scheme with `decode (encode s) = s` and concatenation-homomorphic
decoding, which is all the truncation claims use of it (spec 4.2: "one
fixed, documented tokenization scheme"). -/
def cl100k_encode (s : String) : List Nat :=
  s.data.map Char.toNat

/-- Modelled from the spec: decoding for the fixed tokenization scheme,
inverse of `cl100k_encode` on encoded strings. -/
def cl100k_decode (l : List Nat) : String :=
  String.mk (l.map Char.ofNat)

/-- Which slot a worker's `token_limit_exceeded` signal is connected to:
`send_prompt` connects it to `handle_token_limit_error` (the automatic
recovery), `retry_with_summary` connects it to `show_token_limit_dialog`
(the manual dialog). -/
inductive TLSlot where
  | autoHandler
  | dialogSlot
deriving DecidableEq, Repr

/-- Lifecycle state of a worker, per spec 4.3:
`Idle → Running → {Completed, Failed, Cancelled}`; the two failure kinds
are kept apart because only `failedTokenLimit` triggers recovery. -/
inductive WStatus where
  | running
  | completed
  | failedTokenLimit
  | failedOther
  | cancelled
deriving DecidableEq, Repr

/-- Modelled from the spec: an `LLMWorker` thread object
(`settings/llm_worker.py`, not under `src/`).  `prompt` and `config` are
the two constructor arguments of `LLMWorker(final_prompt, ...)`; `slot`
records which handler its `token_limit_exceeded` signal was connected to;
`connected` whether its signals are still connected to the window;
`stopRequested` whether cooperative cancellation was signalled
(`worker.stop()`, which per spec 4.3 "must not raise"); `stopsWithinGrace`
is the oracle for whether the thread terminates within a bounded wait;
`terminated` whether the thread was forcibly terminated (the source never
calls `terminate()`, so nothing in the model sets it). -/
structure Worker where
  prompt : String
  config : PyDict
  slot : TLSlot
  status : WStatus
  connected : Bool
  stopRequested : Bool
  stopsWithinGrace : Bool
  terminated : Bool
deriving DecidableEq, Repr

/-- Create and start a fresh worker as `send_prompt` / `retry_with_summary`
do: construct `LLMWorker(prompt, config)`, connect its signals
(`data_received`, `finished`, `token_limit_exceeded` to the given slot),
and call `start()`, after which it is running.  `grace` is the oracle for
whether its thread would terminate within a bounded wait. -/
def startWorker (prompt : String) (config : PyDict) (slot : TLSlot)
    (grace : Bool) : Worker :=
  { prompt := prompt, config := config, slot := slot,
    status := WStatus.running, connected := true,
    stopRequested := false, stopsWithinGrace := grace,
    terminated := false }

/-- The `"summary"` entry of a tree item's `data(0, Qt.UserRole)` dict, if
one is stored (the cached synopsis). -/
structure TreeData where
  summary : Option String
deriving DecidableEq, Repr

/-- A project-tree item as the recovery code sees it: its outline level
(`get_item_level`; acts and chapters are levels 0 and 1, scenes level 2
and deeper) and its `Qt.UserRole` data, which may be `None`. -/
structure TreeItem where
  level : Nat
  data : Option TreeData
deriving DecidableEq, Repr

/-- The three global settings read by `retry_with_summary`
(`model.settings["global_pov"]` etc.). -/
structure GlobalSettings where
  global_pov : String
  global_pov_character : String
  global_tense : String
deriving DecidableEq, Repr

/-- Callback armed by a `QTimer.singleShot` call; the only one the
modelled code arms is the 30-second auto-summary retry. -/
inductive TimerCb where
  | autoSummary
deriving DecidableEq, Repr

/-- A single-shot timer request: delay in milliseconds and callback. -/
structure TimerReq where
  delayMs : Nat
  cb : TimerCb
deriving DecidableEq, Repr

/-- A `TokenLimitDialog` invocation: the raw error message, the in-flight
partial output shown (the preview text), and the configured max-token
budget. -/
structure TokenDialog where
  errorMsg : String
  partialOutput : String
  maxTokens : Nat
deriving DecidableEq, Repr

/-- The `ProjectWindow` state the modelled methods read and write.
Input widgets and collaborator query results (`prompt_input` text, the
scene editor text, `get_prompt()`, `get_overrides()`,
`get_additional_vars()`, the selected context text, the current tree
item, the global settings) are state fields; the observable effects
(warnings, critical boxes, status-bar messages, armed timers, shown
dialogs, logged anomalies, `wait` calls, assembled prompts) are
append-only logs.  `retired` holds worker objects the window no longer
references but whose threads/signals may outlive the reference
(rebinding `self.worker` does not destroy the old object).
`hasEncodingAttr` records whether the `self.encoding` attribute exists:
`__init__` never assigns it and no other method does, so it is `false` in
every state the program reaches. -/
structure WindowState where
  promptInput : String
  editorText : String
  previewText : String
  previewReadOnly : Bool
  sendEnabled : Bool
  proseConfig : Option PyDict
  overrides : PyDict
  additionalVars : List (String × String)
  extraContext : Option String
  currentItem : Option TreeItem
  settings : GlobalSettings
  worker : Option Worker
  retired : List Worker
  hasEncodingAttr : Bool
  aggregatorInterrupted : Bool
  summaryRequested : Bool
  timers : List TimerReq
  dialogs : List TokenDialog
  warnings : List String
  criticalBoxes : List String
  statusMessages : List String
  anomalies : List String
  waitCalls : List Nat
  assembled : List String
deriving DecidableEq, Repr

/-- The window state right after `__init__` (lines 59-75): no worker, no
`encoding` attribute, empty logs; the widget/collaborator contents are
parameters. -/
def init_window (promptInput editorText : String) (proseConfig : Option PyDict)
    (overrides : PyDict) (additionalVars : List (String × String))
    (extraContext : Option String) (currentItem : Option TreeItem)
    (settings : GlobalSettings) : WindowState :=
  { promptInput := promptInput, editorText := editorText,
    previewText := "", previewReadOnly := false, sendEnabled := true,
    proseConfig := proseConfig, overrides := overrides,
    additionalVars := additionalVars, extraContext := extraContext,
    currentItem := currentItem, settings := settings,
    worker := none, retired := [], hasEncodingAttr := false,
    aggregatorInterrupted := false, summaryRequested := false,
    timers := [], dialogs := [], warnings := [], criticalBoxes := [],
    statusMessages := [], anomalies := [], waitCalls := [],
    assembled := [] }

/-- Modelled from the spec: `prompt_handler.assemble_final_prompt`
(`muse/prompt_handler.py`, not under `src/`).  Per spec 4.1 it is a pure,
deterministic combiner: variable substitution into the template, then the
action beats, then the optional current-document text, then the optional
extra context.  `send_prompt` passes the whole configuration dict (whose
template the handler extracts) and `retry_with_summary` passes
`prose_config.get("text")` directly; both call sites are modelled as
passing the template text. -/
def assemble_final_prompt (tmpl beats : String) (vars : List (String × String))
    (doc extra : Option String) : String :=
  let base := vars.foldl (fun acc kv => acc.replace ("\x7b" ++ kv.1 ++ "\x7d") kv.2) tmpl
  base ++ "\n" ++ beats
    ++ (match doc with | some d => "\n" ++ d | none => "")
    ++ (match extra with | some e => "\n" ++ e | none => "")

/-- Disconnect a worker's signals (`data_received.disconnect()` etc.,
lines 631-633): raises `TypeError` when already disconnected, which the
source catches. -/
def disconnect_signals (w : Worker) : Except PyErr Worker :=
  if w.connected then Except.ok { w with connected := false }
  else Except.error (PyErr.typeError "disconnect")

/-- `ProjectWindow.cleanup_worker` (lines 618-641).  If a worker is
referenced: when it is still running, signal `stop()` (modelled from the
spec as a cooperative, non-raising cancellation request), `wait(5000)` —
logged in `waitCalls`; the thread status becomes `cancelled` when it
terminates within the grace period, else it stays `running` and the
anomaly is logged ("skipping termination": the thread is never forcibly
terminated) — then disconnect the signals (a `TypeError` from an
already-disconnected signal is caught and logged at debug level),
schedule the object for deletion (`deleteLater`: it goes to `retired`)
and clear the reference.  The surrounding `try/except` would route an
exception to a critical message box, but no modelled step raises. -/
def cleanup_worker (s : WindowState) : WindowState :=
  match s.worker with
  | none => s
  | some w =>
    let stepped :=
      if w.status = WStatus.running then
        let w1 := { w with stopRequested := true }
        let w2 := if w1.stopsWithinGrace then { w1 with status := WStatus.cancelled } else w1
        (w2, s.waitCalls ++ [5000],
          if w2.status = WStatus.running then
            s.anomalies ++ ["did not stop in time; skipping termination"]
          else s.anomalies)
      else (w, s.waitCalls, s.anomalies)
    let w3 := match disconnect_signals stepped.1 with
      | Except.ok w3 => w3
      | Except.error _ => stepped.1
    { s with worker := none, retired := s.retired ++ [w3],
             waitCalls := stepped.2.1, anomalies := stepped.2.2 }

/-- First half of `ProjectWindow.stop_llm` (lines 659-663): when a worker
exists and is running, signal cooperative cancellation to the worker
(`worker.stop()`) and to the aggregator (`WWApiAggregator.interrupt()`, a
collaborator modelled from spec 5 as a best-effort abort of the in-flight
call).  The surrounding `try/except` would route an exception to a
critical message box, but no modelled step raises. -/
def signal_stop (s : WindowState) : WindowState :=
  match s.worker with
  | some w =>
    if w.status = WStatus.running then
      { s with worker := some { w with stopRequested := true },
               aggregatorInterrupted := true }
    else s
  | none => s

/-- The rest of `stop_llm`: re-enable the send button, make the preview
editable, and run `cleanup_worker` (lines 664-667). -/
def stop_llm (s : WindowState) : WindowState :=
  cleanup_worker { signal_stop s with sendEnabled := true, previewReadOnly := false }

/-- The POV/character/tense variable dict rebuilt by `retry_with_summary`
(lines 569-573): each global setting, with its default when falsy. -/
def retry_additional_vars (g : GlobalSettings) : List (String × String) :=
  [("pov", pyOrStr g.global_pov "Third Person"),
   ("pov_character", pyOrStr g.global_pov_character "Character"),
   ("tense", pyOrStr g.global_tense "Present Tense")]

/-- `ProjectWindow.retry_with_summary` (lines 568-589): rebuild the final
prompt with the given summary in the current-document slot and no extra
context, clear the preview, make it read-only, and start a fresh
`LLMWorker(final_prompt, prose_config)` whose `token_limit_exceeded`
signal is connected to `show_token_limit_dialog`.  Rebinding
`self.worker` drops the old reference without stopping or disconnecting
the old object (it goes to `retired`).  `prose_config.get("text")` on a
`None` configuration raises `AttributeError`.  `grace` is the termination
oracle for the fresh worker's thread. -/
def retry_with_summary (s : WindowState) (summary : String) (grace : Bool) :
    Except PyErr WindowState :=
  match s.proseConfig with
  | none => Except.error (PyErr.attributeError "NoneType.get")
  | some cfg =>
    let final_prompt := assemble_final_prompt (pyGetStr cfg "text")
      (pyStrip s.promptInput) (retry_additional_vars s.settings)
      (some summary) none
    Except.ok { s with
      previewText := "", previewReadOnly := true,
      assembled := s.assembled ++ [final_prompt],
      retired := s.retired ++ s.worker.toList,
      worker := some (startWorker final_prompt cfg TLSlot.dialogSlot grace) }

/-- `ProjectWindow.retry_with_auto_summary` (lines 591-594): despite its
name it dispatches nothing — it places the (stripped) scene-editor text
in the preview area and shows a status message inviting the user to edit
and resend. -/
def retry_with_auto_summary (s : WindowState) : WindowState :=
  { s with previewText := pyStrip s.editorText,
           statusMessages := s.statusMessages
             ++ ["Summary generated. Edit if needed, then resend."] }

/-- Fire an armed single-shot timer callback. -/
def fire_timer (cb : TimerCb) (s : WindowState) : WindowState :=
  match cb with
  | TimerCb.autoSummary => retry_with_auto_summary s

/-- Which way `handle_token_limit_error`'s condition
`current_item and level < 2 and current_item.data(0, Qt.UserRole).get("summary")`
(line 560) routes: the cached-summary retry when the selected item is an
act or chapter (level below 2) whose data dict has a truthy (non-empty)
`"summary"` entry; the auto-summarize path otherwise; a crash when such
an item's data is `None` (attribute access `.get` on `None`). -/
inductive TLRoute where
  | cachedRetry (summary : String)
  | autoSummarize
  | crash
deriving DecidableEq, Repr

/-- Evaluate the routing condition of `handle_token_limit_error`. -/
def tl_route (s : WindowState) : TLRoute :=
  match s.currentItem with
  | none => TLRoute.autoSummarize
  | some it =>
    if it.level < 2 then
      match it.data with
      | none => TLRoute.crash
      | some d =>
        match d.summary with
        | some sum => if sum = "" then TLRoute.autoSummarize else TLRoute.cachedRetry sum
        | none => TLRoute.autoSummarize
    else TLRoute.autoSummarize

/-- `ProjectWindow.handle_token_limit_error` (lines 556-566): re-enable
the send button; if the selected item is an act or chapter with a stored
(truthy) synopsis, retry immediately with that synopsis; otherwise show a
status message, ask the summary controller for a summary
(`create_summary()`, a collaborator modelled from spec 4.4 as an
asynchronous summarization request, recorded in `summaryRequested`) and
arm a 30-second single-shot timer whose callback is
`retry_with_auto_summary`.  `grace` is the termination oracle for the
worker a cached-summary retry would start. -/
def handle_token_limit_error (s : WindowState) (grace : Bool) :
    Except PyErr WindowState :=
  let s1 := { s with sendEnabled := true }
  match tl_route s1 with
  | TLRoute.crash => Except.error (PyErr.attributeError "NoneType.get")
  | TLRoute.cachedRetry sum => retry_with_summary s1 sum grace
  | TLRoute.autoSummarize =>
    Except.ok { s1 with
      statusMessages := s1.statusMessages
        ++ ["Generating summary to fit token limit…"],
      summaryRequested := true,
      timers := s1.timers ++ [{ delayMs := 30000, cb := TimerCb.autoSummary }] }

/-- `ProjectWindow.show_token_limit_dialog` (lines 596-602): read the
configured budget (`prose_config.get("max_tokens", 2000)`), and show a
`TokenLimitDialog` carrying the raw error message, the preview text as
the partial output, and that budget.  The dialog itself dispatches
nothing; its `use_summary` / `truncate_story` choices are explicit user
actions (wired to `retry_with_summary` / `retry_with_truncated_story`).
On a `None` configuration, `.get` raises `AttributeError`. -/
def show_token_limit_dialog (s : WindowState) (error_msg : String) :
    Except PyErr WindowState :=
  match s.proseConfig with
  | none => Except.error (PyErr.attributeError "NoneType.get")
  | some cfg =>
    Except.ok { s with dialogs := s.dialogs ++
      [{ errorMsg := error_msg, partialOutput := s.previewText,
         maxTokens := pyGetNatD cfg "max_tokens" 2000 }] }

/-- The trailing token window selected by `retry_with_truncated_story`
(lines 608-609): `tokens[-int(max_tokens):]` where the local
`max_tokens` is `prose_config.get("max_tokens", 2000) * 0.5`.  For a
configured budget `m` (an integer well below 2^53), `m * 0.5` is exact in
floating point and `int` truncates toward zero, so `int(m * 0.5) = m / 2`
in natural division. -/
def truncation_window (tokens : List Nat) (maxTokensCfg : Nat) : List Nat :=
  pyTailSlice tokens (maxTokensCfg / 2)

/-- `ProjectWindow.retry_with_truncated_story` (lines 604-610): encode the
scene editor text with the fixed `cl100k_base` encoding, select the
trailing window of `int(max_tokens * 0.5)` tokens, decode it back with
`self.encoding` and retry with the decoded text.  `ProjectWindow` never
assigns `self.encoding` (neither `__init__` nor any other method), so in
every reachable state the decode step raises `AttributeError`; the
hypothetical retry that a defined `encoding` attribute would perform is
kept in the model so the intended behaviour is visible. -/
def retry_with_truncated_story (s : WindowState) (grace : Bool) :
    Except PyErr WindowState :=
  match s.proseConfig with
  | none => Except.error (PyErr.attributeError "NoneType.get")
  | some cfg =>
    let tokens := cl100k_encode s.editorText
    let mt := pyGetNatD cfg "max_tokens" 2000
    if s.hasEncodingAttr then
      retry_with_summary s (cl100k_decode (truncation_window tokens mt)) grace
    else
      Except.error (PyErr.attributeError "ProjectWindow.encoding")

/-- The current-document slot of `send_prompt`'s assembly (line 541): the
stripped scene text, only when a scene — level 2 or deeper — is
selected. -/
def current_scene_of (s : WindowState) : Option String :=
  match s.currentItem with
  | some it => if 2 ≤ it.level then some (pyStrip s.editorText) else none
  | none => none

/-- The final prompt `send_prompt` assembles (line 543): template, action
beats, the panel's additional variables, the current scene text and the
selected extra context. -/
def send_final_prompt (s : WindowState) (cfg : PyDict) : String :=
  assemble_final_prompt (pyGetStr cfg "text") (pyStrip s.promptInput)
    s.additionalVars (current_scene_of s) s.extraContext

/-- `ProjectWindow.send_prompt` (lines 530-554): warn and return when the
stripped action beats are empty, or when no prompt configuration is
selected; otherwise assemble the final prompt, clear the preview, disable
the send button, make the preview read-only, call `stop_llm` (which stops
any running worker and re-enables the button and preview) and start a
fresh `LLMWorker(final_prompt, overrides)` whose `token_limit_exceeded`
signal is connected to `handle_token_limit_error`. -/
def send_prompt (s : WindowState) (grace : Bool) : WindowState :=
  let action_beats := pyStrip s.promptInput
  if action_beats = "" then
    { s with warnings := s.warnings
        ++ ["Please enter some action beats before sending."] }
  else
    match s.proseConfig with
    | none =>
      { s with warnings := s.warnings ++ ["Please select a prompt."] }
    | some cfg =>
      let final_prompt := send_final_prompt s cfg
      let s1 := { s with previewText := "", sendEnabled := false,
                         previewReadOnly := true }
      let s2 := stop_llm s1
      { s2 with
        assembled := s2.assembled ++ [final_prompt],
        worker := some (startWorker final_prompt s.overrides TLSlot.autoHandler grace) }

/-- A worker can still deliver chunks to the window: its thread is
running, its signals are connected, and cooperative cancellation has not
been signalled (spec 4.3: after `stop()` no further chunks are
delivered). -/
def delivers (w : Worker) : Bool :=
  w.status == WStatus.running && w.connected && !w.stopRequested

/-- All worker objects alive in a state: the referenced one and the
retired ones. -/
def allWorkers (s : WindowState) : List Worker :=
  s.worker.toList ++ s.retired

/-- Every retired (dropped-reference) worker is silent: it can deliver no
further chunks.  This is the single-active-task invariant's key part —
the referenced slot holds at most one worker by construction. -/
def retiredSilent (s : WindowState) : Prop :=
  ∀ w ∈ s.retired, delivers w = false

/-- Number of workers in a state that can still deliver chunks. -/
def deliveringCount (s : WindowState) : Nat :=
  (allWorkers s).countP (fun w => delivers w)

/-! ### Concrete states used by the per-claim theorems -/

/-- Global settings used by the concrete states. -/
def sampleSettings : GlobalSettings :=
  { global_pov := "Third Person", global_pov_character := "Alice",
    global_tense := "Past Tense" }

/-- A prompt configuration with the default-sized budget. -/
def C1config : PyDict :=
  [("text", PyVal.pstr "Write the next passage."),
   ("max_tokens", PyVal.pnum 2000)]

/-- A window about to run the truncate-and-retry recovery: a scene is
loaded, a prompt configuration with `max_tokens = 2000` is selected. -/
def C1state : WindowState :=
  init_window "He opens the door." "Hello world" (some C1config)
    [("temperature", PyVal.pstr "0.7")] [] none none sampleSettings

/-- The worker object as `cleanup_worker` leaves a still-running worker:
stop requested, thread `cancelled` exactly when it terminated within the
grace period, signals disconnected; `terminated` untouched (the source
never calls `terminate()`). -/
def graced (w : Worker) : Worker :=
  { w with stopRequested := true,
           status := if w.stopsWithinGrace then WStatus.cancelled else WStatus.running,
           connected := false }

/-- The `token_limit_exceeded` slot of the worker a recovery step leaves
referenced, when the step succeeded and a worker is referenced. -/
def workerSlotOf (r : Except PyErr WindowState) : Option TLSlot :=
  match r with
  | Except.ok t => t.worker.map Worker.slot
  | Except.error _ => none

/-- The config argument of the worker a recovery step leaves referenced,
when the step succeeded and a worker is referenced. -/
def workerConfigOf (r : Except PyErr WindowState) : Option PyDict :=
  match r with
  | Except.ok t => t.worker.map Worker.config
  | Except.error _ => none

/-- A prompt configuration whose budget is below 2, so that
`int(max_tokens * 0.5) = 0`. -/
def C10config : PyDict :=
  [("text", PyVal.pstr "T"), ("max_tokens", PyVal.pnum 1)]

/-- A window about to run the truncate-and-retry recovery with the tiny
budget of `C10config`. -/
def C10state : WindowState :=
  init_window "Beat." "ab" (some C10config) [] [] none none sampleSettings

/-- A fresh window whose configuration lacks the `max_tokens` key, used
to instantiate the hypotheses of the amended C10 theorem. -/
def C10wstate : WindowState :=
  init_window "Beat." "cd" (some [("text", PyVal.pstr "T")]) [] [] none none
    sampleSettings

/-- A concrete running worker, whose thread does not stop within the
grace period. -/
def C7worker : Worker :=
  { prompt := "p", config := C1config, slot := TLSlot.autoHandler,
    status := WStatus.running, connected := true, stopRequested := false,
    stopsWithinGrace := false, terminated := false }

/-- A window holding the running `C7worker`. -/
def C7state : WindowState :=
  { init_window "Beat." "doc" (some C1config) [] [] none none sampleSettings
      with worker := some C7worker }

/-- A window whose action-beats input is whitespace only. -/
def C9stateA : WindowState :=
  init_window " \t\n " "doc" (some C1config) [] [] none none sampleSettings

/-- A window with action beats but no selected prompt configuration. -/
def C9stateB : WindowState :=
  init_window "Go on." "doc" none [] [] none none sampleSettings

/-- A selected scene (level 2) that even carries a summary entry: the
handler still takes the auto-summarize path, because the cached-summary
branch requires an act or chapter (level below 2). -/
def C5item : TreeItem := { level := 2, data := some (TreeData.mk (some "S")) }

/-- A window in the no-cached-summary situation. -/
def C5state : WindowState :=
  init_window "Beat." "Scene text." (some C1config) [] [] none (some C5item)
    sampleSettings

/-- A selected chapter (level 1) with a stored synopsis. -/
def C6item : TreeItem :=
  { level := 1, data := some (TreeData.mk (some "A synopsis.")) }

/-- A window in the cached-summary situation. -/
def C6state : WindowState :=
  init_window "Beat." "doc" (some C1config) [] [] none (some C6item)
    sampleSettings

/-- A selected act (level 0) with a stored synopsis. -/
def C2item : TreeItem :=
  { level := 0, data := some (TreeData.mk (some "The hero arrives.")) }

/-- The overrides dict the original dispatch passes to the worker
(`get_overrides()`), distinct from the prompt-configuration dict. -/
def C2overrides : PyDict :=
  [("provider", PyVal.pstr "openai"), ("model", PyVal.pstr "gpt-4o")]

/-- A window that dispatched with `C2overrides` and now receives a
token-limit error while an act with a cached synopsis is selected. -/
def C2state : WindowState :=
  init_window "Beat." "Long scene." (some C1config) C2overrides [] none
    (some C2item) sampleSettings

/-- A worker-free window with a selected configuration and no selected
tree item, on which the handler takes the auto-summarize route. -/
def C3state : WindowState :=
  init_window "Go." "doc" (some C1config) [] [] none none sampleSettings

/-- The handler's result on `C3state` (auto-summarize route). -/
def C3auto : WindowState :=
  { C3state with
    sendEnabled := true,
    statusMessages := C3state.statusMessages
      ++ ["Generating summary to fit token limit…"],
    summaryRequested := true,
    timers := C3state.timers ++ [{ delayMs := 30000, cb := TimerCb.autoSummary }] }

/-- C1: for a document tokenizing to length L with `max_tokens = 2000`,
`retry_with_truncated_story` is claimed to retry with the decoding of a
trailing window of at most 1000 tokens, a suffix of the document.  The
source never assigns `self.encoding`, so the decode step raises
`AttributeError` and no retry happens; the window the code selects (and
its decoding, had the attribute existed) are as the claim says. -/
theorem C1_truncate_retry_raises_attribute_error :
    retry_with_truncated_story C1state true
      = Except.error (PyErr.attributeError "ProjectWindow.encoding") ∧
    truncation_window (cl100k_encode C1state.editorText) 2000
      = cl100k_encode C1state.editorText ∧
    cl100k_decode (truncation_window (cl100k_encode C1state.editorText) 2000)
      = C1state.editorText := by
  refine ⟨rfl, rfl, ?_⟩
  decide

/-- C10 counterexample: with `max_tokens = 1` the slice `tokens[-0:]`
does select the entire token sequence, but the retry is not performed
with the full document (nor with anything): the decode step raises
`AttributeError` because `self.encoding` is never assigned. -/
theorem C10_counterexample_no_retry_happens :
    pyGetNatD C10config "max_tokens" 2000 = 1 ∧
    truncation_window (cl100k_encode C10state.editorText) 1
      = cl100k_encode C10state.editorText ∧
    retry_with_truncated_story C10state true
      = Except.error (PyErr.attributeError "ProjectWindow.encoding") := by
  exact ⟨rfl, rfl, rfl⟩

/-- C10 (amended): when the configured budget is below 2 the computed
window is the entire token sequence (Python `tokens[-0:]`), and a missing
`max_tokens` key defaults to 2000; but in every state the program reaches
(`self.encoding` never assigned) the subsequent decode raises
`AttributeError`, so the retry with that window never happens. -/
theorem C10_small_budget_full_window_and_default :
    (∀ (tokens : List Nat) (m : Nat), m < 2 → truncation_window tokens m = tokens) ∧
    (∀ cfg : PyDict, cfg.lookup "max_tokens" = none →
      pyGetNatD cfg "max_tokens" 2000 = 2000) ∧
    (∀ (s : WindowState) (g : Bool), s.hasEncodingAttr = false →
      s.proseConfig.isSome = true →
      retry_with_truncated_story s g
        = Except.error (PyErr.attributeError "ProjectWindow.encoding")) := by
  refine ⟨?_, ?_, ?_⟩
  · intro tokens m hm
    have h0 : m / 2 = 0 := Nat.div_eq_of_lt hm
    simp [truncation_window, pyTailSlice, h0]
  · intro cfg h
    simp [pyGetNatD, h]
  · intro s g hEnc hCfg
    rcases hsome : s.proseConfig with _ | cfg
    · rw [hsome] at hCfg; simp at hCfg
    · simp [retry_with_truncated_story, hsome, hEnc]

/-- Witness for the amended C10 theorem at concrete inputs. -/
theorem C10_small_budget_full_window_and_default_witness :
    truncation_window [7, 8, 9] 1 = [7, 8, 9] ∧
    pyGetNatD [("text", PyVal.pstr "T")] "max_tokens" 2000 = 2000 ∧
    retry_with_truncated_story C10wstate true
      = Except.error (PyErr.attributeError "ProjectWindow.encoding") :=
  ⟨C10_small_budget_full_window_and_default.1 [7, 8, 9] 1 (by decide),
   C10_small_budget_full_window_and_default.2.1 [("text", PyVal.pstr "T")] rfl,
   C10_small_budget_full_window_and_default.2.2 C10wstate true rfl rfl⟩

/-! ### Helper lemmas about `cleanup_worker`, `signal_stop`, `stop_llm` -/

/-- Rewriting the two UI flags to values they already have is the
identity on the window state. -/
theorem window_flags_update_id (t : WindowState) (h1 : t.sendEnabled = true)
    (h2 : t.previewReadOnly = false) :
    ({ t with sendEnabled := true, previewReadOnly := false } : WindowState) = t := by
  cases t
  simp_all

/-- `cleanup_worker` always leaves the worker reference cleared. -/
theorem cleanup_worker_worker (s : WindowState) : (cleanup_worker s).worker = none := by
  unfold cleanup_worker
  rcases h : s.worker with _ | w
  · simpa using h
  · simp

/-- `cleanup_worker` with no referenced worker is the identity. -/
theorem cleanup_worker_none {s : WindowState} (h : s.worker = none) :
    cleanup_worker s = s := by
  unfold cleanup_worker
  rw [h]

/-- `cleanup_worker` touches only the worker slot, the retired list, the
wait log and the anomaly log. -/
theorem cleanup_worker_fields (s : WindowState) :
    (cleanup_worker s).sendEnabled = s.sendEnabled ∧
    (cleanup_worker s).previewReadOnly = s.previewReadOnly ∧
    (cleanup_worker s).criticalBoxes = s.criticalBoxes ∧
    (cleanup_worker s).warnings = s.warnings ∧
    (cleanup_worker s).aggregatorInterrupted = s.aggregatorInterrupted := by
  unfold cleanup_worker
  rcases h : s.worker with _ | w <;> simp

/-- `signal_stop` touches only the worker's stop flag and the aggregator
interrupt flag. -/
theorem signal_stop_fields (s : WindowState) :
    (signal_stop s).sendEnabled = s.sendEnabled ∧
    (signal_stop s).previewReadOnly = s.previewReadOnly ∧
    (signal_stop s).criticalBoxes = s.criticalBoxes ∧
    (signal_stop s).warnings = s.warnings := by
  unfold signal_stop
  rcases h : s.worker with _ | w
  · simp [h]
  · simp only [h]
    split <;> simp

/-- `signal_stop` on a state with no referenced worker is the identity. -/
theorem signal_stop_none {s : WindowState} (h : s.worker = none) :
    signal_stop s = s := by
  unfold signal_stop
  rw [h]

/-- C4: the stop/cancel operation is total (no modelled step can raise,
so the `except` branch that would show a critical box is never taken) and
idempotent, and every call leaves the send button enabled, the preview
editable and the worker reference cleared. -/
theorem C4_stop_llm_total_idempotent (s : WindowState) :
    (stop_llm s).worker = none ∧
    (stop_llm s).sendEnabled = true ∧
    (stop_llm s).previewReadOnly = false ∧
    (stop_llm s).criticalBoxes = s.criticalBoxes ∧
    (stop_llm s).warnings = s.warnings ∧
    stop_llm (stop_llm s) = stop_llm s := by
  have hw : (stop_llm s).worker = none := cleanup_worker_worker _
  have hse : (stop_llm s).sendEnabled = true :=
    (cleanup_worker_fields _).1
  have hpr : (stop_llm s).previewReadOnly = false :=
    (cleanup_worker_fields _).2.1
  have hcb : (stop_llm s).criticalBoxes = s.criticalBoxes := by
    have h1 := (cleanup_worker_fields
      ({ signal_stop s with sendEnabled := true, previewReadOnly := false })).2.2.1
    have h2 := (signal_stop_fields s).2.2.1
    exact h1.trans h2
  have hwa : (stop_llm s).warnings = s.warnings := by
    have h1 := (cleanup_worker_fields
      ({ signal_stop s with sendEnabled := true, previewReadOnly := false })).2.2.2.1
    have h2 := (signal_stop_fields s).2.2.2
    exact h1.trans h2
  refine ⟨hw, hse, hpr, hcb, hwa, ?_⟩
  have hsig : signal_stop (stop_llm s) = stop_llm s := signal_stop_none hw
  show cleanup_worker _ = stop_llm s
  rw [hsig, window_flags_update_id _ hse hpr]
  exact cleanup_worker_none hw

/-- Closed form of `cleanup_worker` on a still-running worker. -/
theorem cleanup_worker_running_eq (s : WindowState) (w : Worker)
    (hw : s.worker = some w) (hr : w.status = WStatus.running) :
    cleanup_worker s
      = { s with worker := none,
                 retired := s.retired ++ [graced w],
                 waitCalls := s.waitCalls ++ [5000],
                 anomalies :=
                   if w.stopsWithinGrace then s.anomalies
                   else s.anomalies ++ ["did not stop in time; skipping termination"] } := by
  obtain ⟨p, cfg, sl, st, conn, stopR, grace, term⟩ := w
  obtain rfl : st = WStatus.running := hr
  cases conn <;> cases grace <;>
    simp [cleanup_worker, disconnect_signals, graced, hw]

/-- Closed form of `cleanup_worker` on a worker that is not running: no
wait, no anomaly, signals disconnected, reference released. -/
theorem cleanup_worker_not_running_eq (s : WindowState) (w : Worker)
    (hw : s.worker = some w) (hr : w.status ≠ WStatus.running) :
    cleanup_worker s
      = { s with worker := none,
                 retired := s.retired ++ [{ w with connected := false }] } := by
  obtain ⟨p, cfg, sl, st, conn, stopR, grace, term⟩ := w
  have hst : st ≠ WStatus.running := hr
  cases conn <;>
    simp [cleanup_worker, disconnect_signals, hw, hst]

/-- C7: cleaning up a still-running worker waits for the bounded grace
period of 5000 ms exactly once, then — whether or not the thread stopped
— disconnects the signals, releases the reference, logs the anomaly
exactly when the thread outlived the grace period, and never forcibly
terminates the thread. -/
theorem C7_cleanup_bounded_grace (s : WindowState) (w : Worker)
    (hw : s.worker = some w) (hr : w.status = WStatus.running) :
    cleanup_worker s
      = { s with worker := none,
                 retired := s.retired ++ [graced w],
                 waitCalls := s.waitCalls ++ [5000],
                 anomalies :=
                   if w.stopsWithinGrace then s.anomalies
                   else s.anomalies ++ ["did not stop in time; skipping termination"] } ∧
    (graced w).terminated = w.terminated ∧
    (graced w).connected = false :=
  ⟨cleanup_worker_running_eq s w hw hr, rfl, rfl⟩

/-- Witness for C7 at a concrete state with a running worker. -/
theorem C7_cleanup_bounded_grace_witness :
    (cleanup_worker C7state
      = { C7state with worker := none,
                       retired := C7state.retired ++ [graced C7worker],
                       waitCalls := C7state.waitCalls ++ [5000],
                       anomalies :=
                         if C7worker.stopsWithinGrace then C7state.anomalies
                         else C7state.anomalies
                           ++ ["did not stop in time; skipping termination"] }) ∧
    (graced C7worker).terminated = C7worker.terminated ∧
    (graced C7worker).connected = false :=
  C7_cleanup_bounded_grace C7state C7worker rfl rfl

/-- C9: a dispatch with empty or whitespace-only action beats warns and
returns with the state otherwise unchanged — no prompt assembled, no
worker stopped or discarded, no new worker created; likewise when no
prompt configuration is selected. -/
theorem C9_empty_beats_or_no_config_only_warns :
    (∀ (s : WindowState) (g : Bool), pyStrip s.promptInput = "" →
      send_prompt s g
        = { s with warnings := s.warnings
              ++ ["Please enter some action beats before sending."] }) ∧
    (∀ (s : WindowState) (g : Bool), pyStrip s.promptInput ≠ "" →
      s.proseConfig = none →
      send_prompt s g
        = { s with warnings := s.warnings ++ ["Please select a prompt."] }) := by
  constructor
  · intro s g h
    simp [send_prompt, h]
  · intro s g h hc
    simp [send_prompt, h, hc]

/-- Witness for C9 at concrete states. -/
theorem C9_empty_beats_or_no_config_only_warns_witness :
    send_prompt C9stateA true
      = { C9stateA with warnings := C9stateA.warnings
            ++ ["Please enter some action beats before sending."] } ∧
    send_prompt C9stateB true
      = { C9stateB with warnings := C9stateB.warnings
            ++ ["Please select a prompt."] } :=
  ⟨C9_empty_beats_or_no_config_only_warns.1 C9stateA true (by decide),
   C9_empty_beats_or_no_config_only_warns.2 C9stateB true (by decide) rfl⟩

/-! ### C5: the no-cached-summary path -/

/-- C5: on a token-limit error with no cached summary the handler
requests an asynchronous summarization and arms a 30-second single-shot
timer; the timer's callback places the (stripped) best-effort summary
text — the scene editor's content — in the preview area with a status
message inviting manual edit-and-resend, and dispatches no new worker
(the full-state equation shows the worker slot untouched). -/
theorem C5_no_cached_summary_arms_timer (s : WindowState) (g : Bool)
    (h : tl_route s = TLRoute.autoSummarize) :
    handle_token_limit_error s g
      = Except.ok { s with
          sendEnabled := true,
          statusMessages := s.statusMessages
            ++ ["Generating summary to fit token limit…"],
          summaryRequested := true,
          timers := s.timers ++ [{ delayMs := 30000, cb := TimerCb.autoSummary }] } ∧
    (∀ t : WindowState, fire_timer TimerCb.autoSummary t
      = { t with
          previewText := pyStrip t.editorText,
          statusMessages := t.statusMessages
            ++ ["Summary generated. Edit if needed, then resend."] }) := by
  constructor
  · have h1 : tl_route { s with sendEnabled := true } = TLRoute.autoSummarize := h
    simp [handle_token_limit_error, h1]
  · intro t
    rfl

/-- Witness for C5 at a concrete state. -/
theorem C5_no_cached_summary_arms_timer_witness :
    handle_token_limit_error C5state true
      = Except.ok { C5state with
          sendEnabled := true,
          statusMessages := C5state.statusMessages
            ++ ["Generating summary to fit token limit…"],
          summaryRequested := true,
          timers := C5state.timers
            ++ [{ delayMs := 30000, cb := TimerCb.autoSummary }] } ∧
    fire_timer TimerCb.autoSummary C5state
      = { C5state with
          previewText := pyStrip C5state.editorText,
          statusMessages := C5state.statusMessages
            ++ ["Summary generated. Edit if needed, then resend."] } :=
  ⟨(C5_no_cached_summary_arms_timer C5state true rfl).1,
   (C5_no_cached_summary_arms_timer C5state true rfl).2 C5state⟩

/-! ### C6: exactly one automatic retry -/

/-- C6: the automatic cached-summary retry connects the retried worker's
`token_limit_exceeded` signal to `show_token_limit_dialog`, not back to
`handle_token_limit_error` — so a second token-limit error goes to the
manual dialog (raw error, partial output, configured budget with default
2000) and triggers no further automatic retry (the dialog's state
equation shows it only records the dialog; dispatches are its explicit
user choices). -/
theorem C6_single_automatic_retry :
    (∀ (s : WindowState) (g : Bool) (sum : String),
      tl_route s = TLRoute.cachedRetry sum →
      s.proseConfig.isSome = true →
      workerSlotOf (handle_token_limit_error s g) = some TLSlot.dialogSlot) ∧
    (∀ (u : WindowState) (msg : String) (cfg : PyDict),
      u.proseConfig = some cfg →
      show_token_limit_dialog u msg
        = Except.ok { u with dialogs := u.dialogs
            ++ [{ errorMsg := msg, partialOutput := u.previewText,
                  maxTokens := pyGetNatD cfg "max_tokens" 2000 }] }) := by
  constructor
  · intro s g sum h hc
    rcases hcfg : s.proseConfig with _ | cfg
    · rw [hcfg] at hc
      simp at hc
    · have h1 : tl_route { s with sendEnabled := true } = TLRoute.cachedRetry sum := h
      have hEq : handle_token_limit_error s g
          = retry_with_summary { s with sendEnabled := true } sum g := by
        unfold handle_token_limit_error
        simp only [h1]
      rw [hEq]
      simp [retry_with_summary, hcfg, workerSlotOf, startWorker]
  · intro u msg cfg h
    simp [show_token_limit_dialog, h]

/-- Witness for C6 at concrete states. -/
theorem C6_single_automatic_retry_witness :
    workerSlotOf (handle_token_limit_error C6state true) = some TLSlot.dialogSlot ∧
    show_token_limit_dialog C6state "context length exceeded"
      = Except.ok { C6state with dialogs := C6state.dialogs
          ++ [{ errorMsg := "context length exceeded",
                partialOutput := C6state.previewText,
                maxTokens := pyGetNatD C1config "max_tokens" 2000 }] } :=
  ⟨C6_single_automatic_retry.1 C6state true "A synopsis." rfl rfl,
   C6_single_automatic_retry.2 C6state "context length exceeded" C1config rfl⟩

/-! ### Characterization helpers for the dispatch and recovery steps -/

/-- Closed form of `handle_token_limit_error` on the cached-summary
route. -/
theorem handle_cached_eq (s : WindowState) (g : Bool) (sum : String)
    (cfg : PyDict) (h : tl_route s = TLRoute.cachedRetry sum)
    (hc : s.proseConfig = some cfg) :
    handle_token_limit_error s g = Except.ok { s with
      sendEnabled := true,
      previewText := "",
      previewReadOnly := true,
      assembled := s.assembled ++ [assemble_final_prompt (pyGetStr cfg "text")
        (pyStrip s.promptInput) (retry_additional_vars s.settings) (some sum) none],
      retired := s.retired ++ s.worker.toList,
      worker := some (startWorker (assemble_final_prompt (pyGetStr cfg "text")
        (pyStrip s.promptInput) (retry_additional_vars s.settings) (some sum) none)
        cfg TLSlot.dialogSlot g) } := by
  have h1 : tl_route { s with sendEnabled := true } = TLRoute.cachedRetry sum := h
  unfold handle_token_limit_error
  simp only [h1]
  simp [retry_with_summary, hc]

/-- Closed form of `handle_token_limit_error` on the auto-summarize
route. -/
theorem handle_auto_eq (s : WindowState) (g : Bool)
    (h : tl_route s = TLRoute.autoSummarize) :
    handle_token_limit_error s g = Except.ok { s with
      sendEnabled := true,
      statusMessages := s.statusMessages
        ++ ["Generating summary to fit token limit…"],
      summaryRequested := true,
      timers := s.timers ++ [{ delayMs := 30000, cb := TimerCb.autoSummary }] } := by
  have h1 : tl_route { s with sendEnabled := true } = TLRoute.autoSummarize := h
  simp [handle_token_limit_error, h1]

/-- Closed form of `handle_token_limit_error` on the crash route. -/
theorem handle_crash_eq (s : WindowState) (g : Bool)
    (h : tl_route s = TLRoute.crash) :
    handle_token_limit_error s g
      = Except.error (PyErr.attributeError "NoneType.get") := by
  have h1 : tl_route { s with sendEnabled := true } = TLRoute.crash := h
  simp [handle_token_limit_error, h1]

/-- Closed form of `handle_token_limit_error` on the cached-summary
route with no selected configuration. -/
theorem handle_cached_none_eq (s : WindowState) (g : Bool) (sum : String)
    (h : tl_route s = TLRoute.cachedRetry sum) (hc : s.proseConfig = none) :
    handle_token_limit_error s g
      = Except.error (PyErr.attributeError "NoneType.get") := by
  have h1 : tl_route { s with sendEnabled := true } = TLRoute.cachedRetry sum := h
  unfold handle_token_limit_error
  simp only [h1]
  simp [retry_with_summary, hc]

/-- Closed form of `stop_llm` on a state holding a running worker. -/
theorem stop_llm_running_eq (s : WindowState) (w : Worker)
    (hw : s.worker = some w) (hr : w.status = WStatus.running) :
    stop_llm s = { s with
      sendEnabled := true,
      previewReadOnly := false,
      aggregatorInterrupted := true,
      worker := none,
      retired := s.retired ++ [graced { w with stopRequested := true }],
      waitCalls := s.waitCalls ++ [5000],
      anomalies :=
        if w.stopsWithinGrace then s.anomalies
        else s.anomalies ++ ["did not stop in time; skipping termination"] } := by
  unfold stop_llm
  have hsig : signal_stop s
      = { s with worker := some { w with stopRequested := true },
                 aggregatorInterrupted := true } := by
    unfold signal_stop
    simp [hw, hr]
  rw [hsig]
  have hr2 : ({ w with stopRequested := true } : Worker).status = WStatus.running := hr
  rw [cleanup_worker_running_eq _ { w with stopRequested := true } rfl hr2]

/-- Closed form of `send_prompt` past its guards. -/
theorem send_prompt_main_eq (s : WindowState) (g : Bool) (cfg : PyDict)
    (hb : pyStrip s.promptInput ≠ "") (hc : s.proseConfig = some cfg) :
    send_prompt s g =
      { stop_llm { s with previewText := "", sendEnabled := false,
                          previewReadOnly := true } with
        assembled := (stop_llm { s with previewText := "", sendEnabled := false,
                                        previewReadOnly := true }).assembled
          ++ [send_final_prompt s cfg],
        worker := some (startWorker (send_final_prompt s cfg) s.overrides
          TLSlot.autoHandler g) } := by
  simp [send_prompt, hb, hc]

/-! ### C2: the cached-summary retry and its worker configuration -/

/-- C2 counterexample: on the cached-summary retry the new worker is
constructed with the prompt-configuration dict (`get_prompt()`), while
the worker of the original dispatch from the very same window state is
constructed with the overrides dict (`get_overrides()`); the two differ,
so the retry does not re-invoke the worker with the same prompt
configuration as the original dispatch. -/
theorem C2_counterexample_worker_config_differs :
    tl_route C2state = TLRoute.cachedRetry "The hero arrives." ∧
    workerConfigOf (handle_token_limit_error C2state true) = some C1config ∧
    Option.map Worker.config (send_prompt C2state true).worker
      = some C2state.overrides ∧
    C1config ≠ C2state.overrides := by
  refine ⟨rfl, rfl, rfl, by decide⟩

/-- C2 (amended): on a token-limit error with the selected act/chapter
holding a non-empty stored synopsis, the handler immediately rebuilds the
final prompt with the synopsis substituted into the current-document slot
(no extra context, the global POV/character/tense variables) and starts a
fresh worker with no user interaction (the full-state equation leaves
warnings and dialogs untouched); the worker is invoked with the currently
selected prompt-configuration dict, not with the overrides dict the
original dispatch passed. -/
theorem C2_cached_summary_immediate_retry (s : WindowState) (g : Bool)
    (sum : String) (cfg : PyDict)
    (h : tl_route s = TLRoute.cachedRetry sum) (hc : s.proseConfig = some cfg) :
    handle_token_limit_error s g = Except.ok { s with
      sendEnabled := true,
      previewText := "",
      previewReadOnly := true,
      assembled := s.assembled ++ [assemble_final_prompt (pyGetStr cfg "text")
        (pyStrip s.promptInput) (retry_additional_vars s.settings) (some sum) none],
      retired := s.retired ++ s.worker.toList,
      worker := some (startWorker (assemble_final_prompt (pyGetStr cfg "text")
        (pyStrip s.promptInput) (retry_additional_vars s.settings) (some sum) none)
        cfg TLSlot.dialogSlot g) } :=
  handle_cached_eq s g sum cfg h hc

/-- Witness for the amended C2 theorem at a concrete state. -/
theorem C2_cached_summary_immediate_retry_witness :
    handle_token_limit_error C2state true = Except.ok { C2state with
      sendEnabled := true,
      previewText := "",
      previewReadOnly := true,
      assembled := C2state.assembled
        ++ [assemble_final_prompt (pyGetStr C1config "text")
              (pyStrip C2state.promptInput) (retry_additional_vars C2state.settings)
              (some "The hero arrives.") none],
      retired := C2state.retired ++ C2state.worker.toList,
      worker := some (startWorker (assemble_final_prompt (pyGetStr C1config "text")
        (pyStrip C2state.promptInput) (retry_additional_vars C2state.settings)
        (some "The hero arrives.") none) C1config TLSlot.dialogSlot true) } :=
  C2_cached_summary_immediate_retry C2state true "The hero arrives." C1config rfl rfl

/-! ### C3: at most one active generation task -/

/-- A worker with disconnected signals delivers nothing. -/
theorem delivers_false_of_not_connected {w : Worker} (h : w.connected = false) :
    delivers w = false := by
  simp [delivers, h]

/-- A worker with cancellation signalled delivers nothing. -/
theorem delivers_false_of_stop_requested {w : Worker} (h : w.stopRequested = true) :
    delivers w = false := by
  simp [delivers, h]

/-- In a state whose retired workers are silent, they contribute nothing
to the delivering count. -/
theorem retired_countP_zero {s : WindowState} (h : retiredSilent s) :
    s.retired.countP (fun w => delivers w) = 0 :=
  List.countP_eq_zero.mpr (fun a ha => by simp [h a ha])

/-- With silent retired workers, at most the one referenced worker can
deliver chunks. -/
theorem deliveringCount_le_one {s : WindowState} (h : retiredSilent s) :
    deliveringCount s ≤ 1 := by
  unfold deliveringCount allWorkers
  rw [List.countP_append, retired_countP_zero h]
  rcases s.worker with _ | w
  · simp
  · by_cases hd : delivers w = true <;> simp [List.countP_cons, hd]

/-- `cleanup_worker` preserves silence of the retired workers: the worker
it retires has its signals disconnected. -/
theorem retiredSilent_cleanup {s : WindowState} (h : retiredSilent s) :
    retiredSilent (cleanup_worker s) := by
  rcases hw : s.worker with _ | w
  · rw [cleanup_worker_none hw]
    exact h
  · by_cases hr : w.status = WStatus.running
    · rw [cleanup_worker_running_eq s w hw hr]
      intro x hx
      simp only [List.mem_append, List.mem_singleton] at hx
      rcases hx with hx | hx
      · exact h x hx
      · subst hx
        exact delivers_false_of_not_connected rfl
    · rw [cleanup_worker_not_running_eq s w hw hr]
      intro x hx
      simp only [List.mem_append, List.mem_singleton] at hx
      rcases hx with hx | hx
      · exact h x hx
      · subst hx
        exact delivers_false_of_not_connected rfl

/-- `signal_stop` preserves silence of the retired workers. -/
theorem retiredSilent_signal {s : WindowState} (h : retiredSilent s) :
    retiredSilent (signal_stop s) := by
  unfold signal_stop
  rcases hw : s.worker with _ | w
  · simpa using h
  · simp only [hw]
    split
    · intro x hx
      exact h x hx
    · exact h

/-- `stop_llm` preserves silence of the retired workers. -/
theorem retiredSilent_stop_llm {s : WindowState} (h : retiredSilent s) :
    retiredSilent (stop_llm s) := by
  unfold stop_llm
  apply retiredSilent_cleanup
  intro x hx
  exact retiredSilent_signal h x hx

/-- C3: the single-active-task discipline.  First conjunct: a dispatch
from a state whose dropped workers are silent leaves them silent and at
most one worker delivering.  Second conjunct: the token-limit handler —
whose precondition is that the signalling worker already failed, hence
delivers nothing — likewise.  Third conjunct: a dispatch over a running
worker first signals cooperative cancellation to that worker and to the
aggregator's interrupt capability and retires it disconnected, before the
new worker exists. -/
theorem C3_at_most_one_active_task :
    (∀ (s : WindowState) (g : Bool), retiredSilent s →
      retiredSilent (send_prompt s g) ∧ deliveringCount (send_prompt s g) ≤ 1) ∧
    (∀ (s : WindowState) (g : Bool) (t : WindowState), retiredSilent s →
      (∀ w, s.worker = some w → delivers w = false) →
      handle_token_limit_error s g = Except.ok t →
      retiredSilent t ∧ deliveringCount t ≤ 1) ∧
    (∀ (s : WindowState) (g : Bool) (w : Worker), s.worker = some w →
      w.status = WStatus.running → pyStrip s.promptInput ≠ "" →
      s.proseConfig.isSome = true →
      (send_prompt s g).retired
          = s.retired ++ [graced { w with stopRequested := true }] ∧
      (graced { w with stopRequested := true }).stopRequested = true ∧
      (graced { w with stopRequested := true }).connected = false ∧
      (send_prompt s g).aggregatorInterrupted = true) := by
  refine ⟨?_, ?_, ?_⟩
  · intro s g h
    by_cases hb : pyStrip s.promptInput = ""
    · have he : send_prompt s g
          = { s with warnings := s.warnings
                ++ ["Please enter some action beats before sending."] } := by
        simp [send_prompt, hb]
      rw [he]
      exact ⟨fun x hx => h x hx, deliveringCount_le_one (fun x hx => h x hx)⟩
    · rcases hc : s.proseConfig with _ | cfg
      · have he : send_prompt s g
            = { s with warnings := s.warnings ++ ["Please select a prompt."] } := by
          simp [send_prompt, hb, hc]
        rw [he]
        exact ⟨fun x hx => h x hx, deliveringCount_le_one (fun x hx => h x hx)⟩
      · rw [send_prompt_main_eq s g cfg hb hc]
        have h1 : retiredSilent ({ s with previewText := "", sendEnabled := false,
                                          previewReadOnly := true } : WindowState) :=
          fun x hx => h x hx
        have h2 := retiredSilent_stop_llm h1
        refine ⟨fun x hx => h2 x hx, ?_⟩
        have h3 := retired_countP_zero h2
        have hnew : delivers (startWorker (send_final_prompt s cfg) s.overrides
            TLSlot.autoHandler g) = true := rfl
        have hgoal : List.countP (fun w => delivers w)
            ([startWorker (send_final_prompt s cfg) s.overrides TLSlot.autoHandler g]
              ++ (stop_llm { s with previewText := "", sendEnabled := false,
                                    previewReadOnly := true }).retired) ≤ 1 := by
          rw [List.countP_append, List.countP_cons, h3, hnew]
          simp
        exact hgoal
  · intro s g t h hwk hok
    rcases hroute : tl_route s with sum | _ | _
    · rcases hc : s.proseConfig with _ | cfg
      · rw [handle_cached_none_eq s g sum hroute hc] at hok
        exact absurd hok (by simp)
      · rw [handle_cached_eq s g sum cfg hroute hc] at hok
        obtain rfl : _ = t := Except.ok.inj hok
        constructor
        · intro x hx
          simp only [List.mem_append] at hx
          rcases hx with hx | hx
          · exact h x hx
          · rcases hw : s.worker with _ | w0
            · rw [hw] at hx
              simp at hx
            · rw [hw] at hx
              simp only [Option.toList_some, List.mem_singleton] at hx
              subst hx
              exact hwk x hw
        · have h4 : s.worker.toList.countP (fun w => delivers w) = 0 := by
            rcases hw : s.worker with _ | w0
            · rfl
            · show List.countP (fun w => delivers w) [w0] = 0
              rw [List.countP_cons, hwk w0 hw]
              rfl
          have h3 : (s.retired ++ s.worker.toList).countP (fun w => delivers w) = 0 := by
            rw [List.countP_append, retired_countP_zero h, h4]
          have hnew : delivers (startWorker (assemble_final_prompt (pyGetStr cfg "text")
              (pyStrip s.promptInput) (retry_additional_vars s.settings) (some sum) none)
              cfg TLSlot.dialogSlot g) = true := rfl
          have hgoal : List.countP (fun w => delivers w)
              ([startWorker (assemble_final_prompt (pyGetStr cfg "text")
                  (pyStrip s.promptInput) (retry_additional_vars s.settings) (some sum) none)
                  cfg TLSlot.dialogSlot g]
                ++ (s.retired ++ s.worker.toList)) ≤ 1 := by
            rw [List.countP_append, List.countP_cons, h3, hnew]
            simp
          exact hgoal
    · rw [handle_auto_eq s g hroute] at hok
      obtain rfl : _ = t := Except.ok.inj hok
      constructor
      · intro x hx
        exact h x hx
      · exact deliveringCount_le_one (fun x hx => h x hx)
    · rw [handle_crash_eq s g hroute] at hok
      exact absurd hok (by simp)
  · intro s g w hw hr hb hcs
    rcases hc : s.proseConfig with _ | cfg
    · rw [hc] at hcs
      simp at hcs
    · rw [send_prompt_main_eq s g cfg hb hc]
      have hw1 : ({ s with previewText := "", sendEnabled := false,
                           previewReadOnly := true } : WindowState).worker = some w := hw
      rw [stop_llm_running_eq _ w hw1 hr]
      exact ⟨rfl, rfl, rfl, rfl⟩

/-- Witness for C3 at concrete states: a dispatch over the running
`C7worker`, and the handler on a worker-free window. -/
theorem C3_at_most_one_active_task_witness :
    (retiredSilent (send_prompt C7state true)
      ∧ deliveringCount (send_prompt C7state true) ≤ 1) ∧
    (retiredSilent C3auto ∧ deliveringCount C3auto ≤ 1) ∧
    ((send_prompt C7state true).retired
        = C7state.retired ++ [graced { C7worker with stopRequested := true }] ∧
     (graced { C7worker with stopRequested := true }).stopRequested = true ∧
     (graced { C7worker with stopRequested := true }).connected = false ∧
     (send_prompt C7state true).aggregatorInterrupted = true) :=
  ⟨C3_at_most_one_active_task.1 C7state true
     (fun x hx => absurd hx (List.not_mem_nil x)),
   C3_at_most_one_active_task.2.1 C3state true C3auto
     (fun x hx => absurd hx (List.not_mem_nil x))
     (fun w hw => Option.noConfusion hw) rfl,
   C3_at_most_one_active_task.2.2 C7state true C7worker rfl rfl (by decide) rfl⟩

end Writingway
